import Mathlib

/-!
# Student Dashboard — verified model

Shallow embedding of the computational core of `src/app.py`:
filtering of attendance/marks tables by multiselect selections with
"All Students" / "All Subjects" sentinels, group-by attendance
aggregation, threshold alerts, the left-join special-attention
computation, and event deadline filtering.

Tables are lists of records; numeric columns are rationals; dates are
integers (days). Pandas `NaN` results (mean of an empty series, missing
value after a left join) are modelled with `Option`.
-/

namespace StudentDashboard

/-- A row of `attendance_dataset.csv`: Student, Subject, Date, Status.
`Status` is a free-form string; the code tests it against `"Present"`. -/
structure AttendanceRecord where
  student : String
  subject : String
  date : Int
  status : String
deriving DecidableEq, Repr

/-- A row of `marks_dataset.csv`: Student, Subject, Marks. -/
structure MarkRecord where
  student : String
  subject : String
  marks : ℚ
deriving DecidableEq, Repr

/-- A row of `events.csv`: Event, Date, Subject. -/
structure EventRecord where
  event : String
  date : Int
  subject : String
deriving DecidableEq, Repr

/-- A row of the derived attendance summary:
`filtered_df.groupby(["Student","Subject"])["Status"].apply(...)`. -/
structure AttendanceSummary where
  student : String
  subject : String
  attendance_percent : ℚ
deriving DecidableEq, Repr

/-- A row of `merged_df`: a mark record left-joined with the attendance
summary; `attendance_percent` is `none` when the join key is missing
(pandas `NaN`). -/
structure MergedRow where
  student : String
  subject : String
  marks : ℚ
  attendance_percent : Option ℚ
deriving DecidableEq, Repr

/-- Constant `LOW_ATTENDANCE_THRESHOLD = 75` (src/app.py line 24). -/
def LOW_ATTENDANCE_THRESHOLD : ℚ := 75

/-- Constant `FAILING_MARK_THRESHOLD = 40` (src/app.py line 25). -/
def FAILING_MARK_THRESHOLD : ℚ := 40

/-- The attendance-tab filter (src/app.py lines 81–85):
keep the table unchanged on a dimension when its sentinel is selected,
otherwise keep the rows whose field is in the selection. -/
def filtered_df (recs : List AttendanceRecord)
    (selStudents selSubjects : List String) : List AttendanceRecord :=
  let r1 := if "All Students" ∈ selStudents then recs
            else recs.filter (fun r => r.student ∈ selStudents)
  if "All Subjects" ∈ selSubjects then r1
  else r1.filter (fun r => r.subject ∈ selSubjects)

/-- The marks-tab filter (src/app.py lines 132–136), identical in shape
to `filtered_df` but over mark records and the marks-tab selections. -/
def filtered_marks_df (recs : List MarkRecord)
    (selStudents selSubjects : List String) : List MarkRecord :=
  let r1 := if "All Students" ∈ selStudents then recs
            else recs.filter (fun r => r.student ∈ selStudents)
  if "All Subjects" ∈ selSubjects then r1
  else r1.filter (fun r => r.subject ∈ selSubjects)

/-- The (Student, Subject) group keys observed in an attendance table:
pandas `groupby` produces one group per key occurring in the data. -/
def groupKeys (recs : List AttendanceRecord) : List (String × String) :=
  (recs.map (fun r => (r.student, r.subject))).dedup

/-- The rows of one (Student, Subject) group. -/
def groupRecords (recs : List AttendanceRecord) (k : String × String) :
    List AttendanceRecord :=
  recs.filter (fun r => r.student = k.1 ∧ r.subject = k.2)

/-- Number of rows with `Status == "Present"`. -/
def presentCount (l : List AttendanceRecord) : Nat :=
  (l.filter (fun r => r.status = "Present")).length

/-- Percentage `(x == "Present").mean() * 100` of one nonempty group. -/
def attendancePercent (l : List AttendanceRecord) : ℚ :=
  ((presentCount l : ℚ) / (l.length : ℚ)) * 100

/-- The attendance summary (src/app.py lines 91–95 and 177–181):
group by (Student, Subject) and take the percentage of Present rows. -/
def attendance_summary (recs : List AttendanceRecord) :
    List AttendanceSummary :=
  (groupKeys recs).map
    (fun k => ⟨k.1, k.2, attendancePercent (groupRecords recs k)⟩)

/-- Ratio `(filtered_df["Status"] == "Present").mean() * 100`
(src/app.py line 111); pandas `mean` of an empty series is `NaN`,
modelled as `none`. -/
def present_ratio (l : List AttendanceRecord) : Option ℚ :=
  if l.length = 0 then none
  else some (((presentCount l : ℚ) / (l.length : ℚ)) * 100)

/-- Low-attendance alert rows (src/app.py line 120). -/
def low_attendance (summary : List AttendanceSummary) :
    List AttendanceSummary :=
  summary.filter (fun r => r.attendance_percent < LOW_ATTENDANCE_THRESHOLD)

/-- Failing-marks alert rows (src/app.py line 142). -/
def failing_students (marks : List MarkRecord) : List MarkRecord :=
  marks.filter (fun r => r.marks < FAILING_MARK_THRESHOLD)

/-- Attendance percentage found by the left join for one (student,
subject) key; `none` when the summary has no such key (pandas `NaN`).
The summary keys are distinct, so `find?` picks the unique match. -/
def lookupSummary (summary : List AttendanceSummary)
    (st sb : String) : Option ℚ :=
  (summary.find? (fun r => r.student = st ∧ r.subject = sb)).map
    (fun r => r.attendance_percent)

/-- Left join `pd.merge(filtered_marks_df, attendance_summary, on=["Student",
"Subject"], how="left")` (src/app.py lines 184–185). -/
def merged_df (marks : List MarkRecord)
    (summary : List AttendanceSummary) : List MergedRow :=
  marks.map (fun m =>
    ⟨m.student, m.subject, m.marks, lookupSummary summary m.student m.subject⟩)

/-- Test `Attendance % < 75` on a possibly-missing value; in pandas a
comparison against `NaN` is false, so a missing value is excluded. -/
def attnBelow (p : Option ℚ) : Prop :=
  match p with
  | some q => q < LOW_ATTENDANCE_THRESHOLD
  | none => False

instance (p : Option ℚ) : Decidable (attnBelow p) := by
  unfold attnBelow
  cases p <;> infer_instance

/-- The special-attention rows (src/app.py lines 187–190): merged rows
with `Marks < 40` and `Attendance % < 75`. -/
def special_attention (merged : List MergedRow) : List MergedRow :=
  merged.filter
    (fun r => r.marks < FAILING_MARK_THRESHOLD ∧ attnBelow r.attendance_percent)

/-- The marks tab's special-attention computation end to end
(src/app.py lines 132–136 and 177–190), as a function of the full UI
state: both tables and all four sidebar selections.  The code
recomputes `attendance_summary` from the unfiltered `attendance_df`
(line 178), so the attendance-tab selections `selStuA` / `selSubA` do
not occur in the body. -/
def special_attention_output
    (attendance_df : List AttendanceRecord) (marks_df : List MarkRecord)
    (selStuA selSubA selStuM selSubM : List String) : List MergedRow :=
  special_attention
    (merged_df (filtered_marks_df marks_df selStuM selSubM)
      (attendance_summary attendance_df))

/-- The rendered special-attention section (src/app.py lines 192–207):
a warning table when nonempty, an explicit all-clear signal when empty. -/
inductive SpecialAttentionView where
  | flaggedTable (rows : List MergedRow)
  | allClear
deriving DecidableEq, Repr

/-- Branch `if not special_attention.empty: st.dataframe(...) else:
st.success("No students currently flagged")` (src/app.py 192–207). -/
def render_special_attention (sa : List MergedRow) : SpecialAttentionView :=
  if sa.isEmpty then .allClear else .flaggedTable sa

/-- Ascending order on event dates, the key of `sort_values("Date")`. -/
def dateLE (a b : EventRecord) : Prop := a.date ≤ b.date

instance : DecidableRel dateLE := fun a b => Int.decLe a.date b.date

instance : IsTotal EventRecord dateLE := ⟨fun a b => Int.le_total a.date b.date⟩

instance : IsTrans EventRecord dateLE := ⟨fun _ _ _ h1 h2 => le_trans h1 h2⟩

/-- Table `upcoming = events_df[events_df["Date"].dt.date >= today]
.sort_values("Date")` (src/app.py line 215). -/
def upcoming (events : List EventRecord) (today : Int) : List EventRecord :=
  (events.filter (fun e => today ≤ e.date)).insertionSort dateLE

/-- Table `near_deadline = upcoming[upcoming["Date"].dt.date <= today +
timedelta(days=7)]` (src/app.py line 219). -/
def near_deadline (events : List EventRecord) (today : Int) :
    List EventRecord :=
  (upcoming events today).filter (fun e => e.date ≤ today + 7)

/-- The rendered near-deadline section (src/app.py lines 220–222):
a warning table when nonempty, nothing at all when empty. -/
def render_near_deadline (nd : List EventRecord) :
    Option (List EventRecord) :=
  if nd.isEmpty then none else some nd

/-! ## Helper lemmas -/

/-- The two-stage attendance filter is a single `filter` by the
conjunction of the two per-dimension conditions. -/
theorem filtered_df_eq_filter (recs : List AttendanceRecord)
    (ss sb : List String) :
    filtered_df recs ss sb = recs.filter
      (fun r => decide (("All Students" ∈ ss ∨ r.student ∈ ss) ∧
        ("All Subjects" ∈ sb ∨ r.subject ∈ sb))) := by
  unfold filtered_df
  by_cases h1 : "All Students" ∈ ss <;> by_cases h2 : "All Subjects" ∈ sb <;>
    simp [h1, h2, List.filter_filter, Bool.and_comm]

/-- Same for the marks filter. -/
theorem filtered_marks_df_eq_filter (recs : List MarkRecord)
    (ss sb : List String) :
    filtered_marks_df recs ss sb = recs.filter
      (fun r => decide (("All Students" ∈ ss ∨ r.student ∈ ss) ∧
        ("All Subjects" ∈ sb ∨ r.subject ∈ sb))) := by
  unfold filtered_marks_df
  by_cases h1 : "All Students" ∈ ss <;> by_cases h2 : "All Subjects" ∈ sb <;>
    simp [h1, h2, List.filter_filter, Bool.and_comm]

/-- Membership in the filtered attendance table. -/
theorem mem_filtered_df {r : AttendanceRecord} {recs : List AttendanceRecord}
    {ss sb : List String} :
    r ∈ filtered_df recs ss sb ↔
      r ∈ recs ∧ ("All Students" ∈ ss ∨ r.student ∈ ss) ∧
        ("All Subjects" ∈ sb ∨ r.subject ∈ sb) := by
  rw [filtered_df_eq_filter, List.mem_filter]
  simp

/-- Membership in the filtered marks table. -/
theorem mem_filtered_marks_df {r : MarkRecord} {recs : List MarkRecord}
    {ss sb : List String} :
    r ∈ filtered_marks_df recs ss sb ↔
      r ∈ recs ∧ ("All Students" ∈ ss ∨ r.student ∈ ss) ∧
        ("All Subjects" ∈ sb ∨ r.subject ∈ sb) := by
  rw [filtered_marks_df_eq_filter, List.mem_filter]
  simp

/-- No more Present rows than rows. -/
theorem presentCount_le_length (l : List AttendanceRecord) :
    presentCount l ≤ l.length :=
  List.length_filter_le _ l

/-- All rows of a group are Present exactly when the Present count
exhausts the group. -/
theorem presentCount_eq_length_iff (l : List AttendanceRecord) :
    presentCount l = l.length ↔ ∀ r ∈ l, r.status = "Present" := by
  unfold presentCount
  constructor
  · intro h r hr
    have hs : l.filter (fun r => decide (r.status = "Present")) = l :=
      (List.filter_sublist l).eq_of_length h
    have := List.filter_eq_self.mp hs r hr
    simpa using this
  · intro h
    rw [List.filter_eq_self.mpr (fun a ha => by simpa using h a ha)]

/-- No row of a group is Present exactly when the Present count is 0. -/
theorem presentCount_eq_zero_iff (l : List AttendanceRecord) :
    presentCount l = 0 ↔ ∀ r ∈ l, r.status ≠ "Present" := by
  unfold presentCount
  rw [List.length_eq_zero, List.filter_eq_nil_iff]
  simp

/-- Bounds of the percentage of a nonempty group. -/
theorem attendancePercent_bounds {l : List AttendanceRecord} (h : l ≠ []) :
    0 ≤ attendancePercent l ∧ attendancePercent l ≤ 100 := by
  unfold attendancePercent
  have hn : (0 : ℚ) < (l.length : ℚ) := by
    have : 0 < l.length := List.length_pos.mpr h
    exact_mod_cast this
  have hc : (0 : ℚ) ≤ (presentCount l : ℚ) := by positivity
  have hle : (presentCount l : ℚ) ≤ (l.length : ℚ) := by
    exact_mod_cast presentCount_le_length l
  constructor
  · positivity
  · have hdiv : (presentCount l : ℚ) / (l.length : ℚ) ≤ 1 :=
      (div_le_one hn).mpr hle
    nlinarith

/-- The percentage of a nonempty group is 100 iff every status is
Present. -/
theorem attendancePercent_eq_100_iff {l : List AttendanceRecord}
    (h : l ≠ []) :
    attendancePercent l = 100 ↔ ∀ r ∈ l, r.status = "Present" := by
  unfold attendancePercent
  have hn : ((l.length : ℚ)) ≠ 0 := by
    have : 0 < l.length := List.length_pos.mpr h
    positivity
  rw [show ((presentCount l : ℚ) / (l.length : ℚ)) * 100 = 100 ↔
      (presentCount l : ℚ) / (l.length : ℚ) = 1 by
    constructor <;> intro hx <;> nlinarith]
  rw [div_eq_one_iff_eq hn]
  rw [show ((presentCount l : ℚ) = (l.length : ℚ)) ↔
      presentCount l = l.length from Nat.cast_inj]
  exact presentCount_eq_length_iff l

/-- The percentage of a nonempty group is 0 iff no status is Present. -/
theorem attendancePercent_eq_zero_iff {l : List AttendanceRecord}
    (h : l ≠ []) :
    attendancePercent l = 0 ↔ ∀ r ∈ l, r.status ≠ "Present" := by
  unfold attendancePercent
  have hn : ((l.length : ℚ)) ≠ 0 := by
    have : 0 < l.length := List.length_pos.mpr h
    positivity
  rw [mul_eq_zero]
  simp only [show (100 : ℚ) ≠ 0 by norm_num, or_false]
  rw [div_eq_zero_iff]
  simp only [hn, or_false, Nat.cast_eq_zero]
  exact presentCount_eq_zero_iff l

/-- Each observed group key has at least one row. -/
theorem groupRecords_ne_nil {recs : List AttendanceRecord}
    {k : String × String} (h : k ∈ groupKeys recs) :
    groupRecords recs k ≠ [] := by
  unfold groupKeys at h
  rw [List.mem_dedup, List.mem_map] at h
  obtain ⟨r, hr, hk⟩ := h
  apply List.ne_nil_of_mem (a := r)
  unfold groupRecords
  rw [List.mem_filter]
  refine ⟨hr, ?_⟩
  simp [← hk]

/-- Every summary row arises from an observed key and carries that
group's percentage. -/
theorem mem_attendance_summary {recs : List AttendanceRecord}
    {s : AttendanceSummary} (hs : s ∈ attendance_summary recs) :
    (s.student, s.subject) ∈ groupKeys recs ∧
    s.attendance_percent =
      attendancePercent (groupRecords recs (s.student, s.subject)) := by
  unfold attendance_summary at hs
  rw [List.mem_map] at hs
  obtain ⟨k, hk, rfl⟩ := hs
  exact ⟨hk, rfl⟩

/-- The pandas `NaN < 75` comparison: a merged attendance value passes
the threshold test iff it is present and below the threshold. -/
theorem attnBelow_iff (p : Option ℚ) :
    attnBelow p ↔ ∃ q, p = some q ∧ q < LOW_ATTENDANCE_THRESHOLD := by
  cases p <;> simp [attnBelow]

/-- Membership in the left-joined table. -/
theorem mem_merged_df {ms : List MarkRecord} {summ : List AttendanceSummary}
    {r : MergedRow} :
    r ∈ merged_df ms summ ↔
      ∃ m ∈ ms, r = ⟨m.student, m.subject, m.marks,
        lookupSummary summ m.student m.subject⟩ := by
  unfold merged_df
  rw [List.mem_map]
  constructor
  · rintro ⟨m, hm, rfl⟩
    exact ⟨m, hm, rfl⟩
  · rintro ⟨m, hm, rfl⟩
    exact ⟨m, hm, rfl⟩

/-- A merged row's attendance value is the lookup at its own key. -/
theorem merged_attendance_eq_lookup {ms : List MarkRecord}
    {summ : List AttendanceSummary} {r : MergedRow}
    (h : r ∈ merged_df ms summ) :
    r.attendance_percent = lookupSummary summ r.student r.subject := by
  obtain ⟨m, _, rfl⟩ := mem_merged_df.mp h
  rfl

/-! ## Claims -/

/-- C1: the attendance aggregation groups records by (Student, Subject);
each observed group yields one summary row whose percentage is
100 × Present-count / group-size; summary rows exist exactly for
observed keys; every percentage lies in [0,100], is 100 iff every
status in the group is Present, and is 0 iff none is. -/
theorem attendance_summary_spec (recs : List AttendanceRecord) :
    (∀ s ∈ attendance_summary recs,
      s.attendance_percent =
        ((presentCount (groupRecords recs (s.student, s.subject)) : ℚ) /
          ((groupRecords recs (s.student, s.subject)).length : ℚ)) * 100) ∧
    (∀ k : String × String,
      (∃ s ∈ attendance_summary recs, s.student = k.1 ∧ s.subject = k.2) ↔
        ∃ r ∈ recs, r.student = k.1 ∧ r.subject = k.2) ∧
    (∀ s ∈ attendance_summary recs,
      0 ≤ s.attendance_percent ∧ s.attendance_percent ≤ 100) ∧
    (∀ s ∈ attendance_summary recs,
      (s.attendance_percent = 100 ↔
        ∀ r ∈ groupRecords recs (s.student, s.subject),
          r.status = "Present")) ∧
    (∀ s ∈ attendance_summary recs,
      (s.attendance_percent = 0 ↔
        ∀ r ∈ groupRecords recs (s.student, s.subject),
          r.status ≠ "Present")) := by
  refine ⟨?_, ?_, ?_, ?_, ?_⟩
  · intro s hs
    rw [(mem_attendance_summary hs).2]
    rfl
  · intro k
    constructor
    · rintro ⟨s, hs, h1, h2⟩
      have hk := (mem_attendance_summary hs).1
      rw [h1, h2] at hk
      unfold groupKeys at hk
      rw [List.mem_dedup, List.mem_map] at hk
      obtain ⟨r, hr, hkr⟩ := hk
      exact ⟨r, hr, congrArg Prod.fst hkr, congrArg Prod.snd hkr⟩
    · rintro ⟨r, hr, h1, h2⟩
      refine ⟨⟨k.1, k.2, attendancePercent (groupRecords recs (k.1, k.2))⟩,
        ?_, rfl, rfl⟩
      unfold attendance_summary
      rw [List.mem_map]
      refine ⟨(k.1, k.2), ?_, rfl⟩
      unfold groupKeys
      rw [List.mem_dedup, List.mem_map]
      exact ⟨r, hr, by rw [h1, h2]⟩
  · intro s hs
    obtain ⟨hk, hp⟩ := mem_attendance_summary hs
    rw [hp]
    exact attendancePercent_bounds (groupRecords_ne_nil hk)
  · intro s hs
    obtain ⟨hk, hp⟩ := mem_attendance_summary hs
    rw [hp]
    exact attendancePercent_eq_100_iff (groupRecords_ne_nil hk)
  · intro s hs
    obtain ⟨hk, hp⟩ := mem_attendance_summary hs
    rw [hp]
    exact attendancePercent_eq_zero_iff (groupRecords_ne_nil hk)

/-- C1 witness: the spec's example — two Math records for student A,
one Present and one Absent — yields the summary row (A, Math, 50),
whose percentage the theorem brackets between 0 and 100. -/
theorem attendance_summary_spec_witness :
    (⟨"A", "Math", (50 : ℚ)⟩ : AttendanceSummary) ∈
      attendance_summary
        [⟨"A", "Math", 1, "Present"⟩, ⟨"A", "Math", 2, "Absent"⟩] ∧
    (0 : ℚ) ≤ 50 ∧ (50 : ℚ) ≤ 100 := by
  have hmem : (⟨"A", "Math", (50 : ℚ)⟩ : AttendanceSummary) ∈
      attendance_summary
        [⟨"A", "Math", 1, "Present"⟩, ⟨"A", "Math", 2, "Absent"⟩] := by
    have : attendance_summary
        [⟨"A", "Math", 1, "Present"⟩, ⟨"A", "Math", 2, "Absent"⟩] =
        [⟨"A", "Math", (50 : ℚ)⟩] := by
      simp [attendance_summary, groupKeys, groupRecords, attendancePercent,
        presentCount]
      norm_num
    rw [this]
    exact List.mem_singleton.mpr rfl
  have h := (attendance_summary_spec
    [⟨"A", "Math", 1, "Present"⟩, ⟨"A", "Math", 2, "Absent"⟩]).2.2.1
    ⟨"A", "Math", (50 : ℚ)⟩ hmem
  exact ⟨hmem, by simpa using h⟩

/-- C4: if the sentinel is present in a selection set that dimension is
unrestricted, otherwise only rows whose field value is in the selection
set are kept; the two dimensions apply conjunctively; and an empty
selection set yields zero rows rather than an error — for the
attendance filter and the marks filter alike. -/
theorem filter_semantics (recs : List AttendanceRecord)
    (mrecs : List MarkRecord) (ss sb : List String) :
    (∀ r : AttendanceRecord, r ∈ filtered_df recs ss sb ↔
        r ∈ recs ∧ ("All Students" ∈ ss ∨ r.student ∈ ss) ∧
          ("All Subjects" ∈ sb ∨ r.subject ∈ sb)) ∧
    (∀ m : MarkRecord, m ∈ filtered_marks_df mrecs ss sb ↔
        m ∈ mrecs ∧ ("All Students" ∈ ss ∨ m.student ∈ ss) ∧
          ("All Subjects" ∈ sb ∨ m.subject ∈ sb)) ∧
    filtered_df recs [] sb = [] ∧ filtered_df recs ss [] = [] ∧
    filtered_marks_df mrecs [] sb = [] ∧ filtered_marks_df mrecs ss [] = [] := by
  refine ⟨fun r => mem_filtered_df, fun m => mem_filtered_marks_df, ?_, ?_, ?_, ?_⟩ <;>
    simp [filtered_df_eq_filter, filtered_marks_df_eq_filter]

/-- C4 witness: with the student sentinel selected and subject
selection ["Math"], the Math row passes the filter; with an empty
student selection the filter yields zero rows. -/
theorem filter_semantics_witness :
    ((⟨"A", "Math", 1, "Present"⟩ : AttendanceRecord) ∈
      filtered_df [⟨"A", "Math", 1, "Present"⟩, ⟨"B", "Sci", 2, "Absent"⟩]
        ["All Students"] ["Math"]) ∧
    filtered_df [⟨"A", "Math", 1, "Present"⟩] [] ["All Subjects"] = [] := by
  have h := filter_semantics
    [⟨"A", "Math", 1, "Present"⟩, ⟨"B", "Sci", 2, "Absent"⟩]
    [] ["All Students"] ["Math"]
  have h2 := filter_semantics [⟨"A", "Math", 1, "Present"⟩]
    [] [] ["All Subjects"]
  exact ⟨(h.1 ⟨"A", "Math", 1, "Present"⟩).mpr
    ⟨by decide, by decide, by decide⟩, h2.2.2.1⟩

/-- C6: the filter is idempotent, and filtering with both sentinels
present returns the input unchanged. -/
theorem filter_idempotent_identity (recs : List AttendanceRecord)
    (mrecs : List MarkRecord) (ss sb : List String) :
    filtered_df (filtered_df recs ss sb) ss sb = filtered_df recs ss sb ∧
    filtered_marks_df (filtered_marks_df mrecs ss sb) ss sb =
      filtered_marks_df mrecs ss sb ∧
    ("All Students" ∈ ss → "All Subjects" ∈ sb →
      filtered_df recs ss sb = recs ∧ filtered_marks_df mrecs ss sb = mrecs) := by
  refine ⟨?_, ?_, fun h1 h2 => ?_⟩
  · simp [filtered_df_eq_filter, List.filter_filter]
  · simp [filtered_marks_df_eq_filter, List.filter_filter]
  · exact ⟨by unfold filtered_df; simp [h1, h2],
      by unfold filtered_marks_df; simp [h1, h2]⟩

/-- C6 witness: idempotence and sentinel identity at a concrete table. -/
theorem filter_idempotent_identity_witness :
    filtered_df (filtered_df [⟨"A", "Math", 0, "Present"⟩]
        ["All Students"] ["Math"]) ["All Students"] ["Math"] =
      filtered_df [⟨"A", "Math", 0, "Present"⟩] ["All Students"] ["Math"] ∧
    filtered_df [⟨"A", "Math", 0, "Present"⟩]
        ["All Students"] ["All Subjects"] = [⟨"A", "Math", 0, "Present"⟩] := by
  have h := filter_idempotent_identity [⟨"A", "Math", 0, "Present"⟩]
    [] ["All Students"] ["Math"]
  have h' := filter_idempotent_identity [⟨"A", "Math", 0, "Present"⟩]
    [] ["All Students"] ["All Subjects"]
  exact ⟨h.1, (h'.2.2 (by decide) (by decide)).1⟩

/-- C10: the sentinel is a magic string — whenever the literal string
"All Students" is in the student selection, that dimension is
unrestricted, so a record whose Student field genuinely equals
"All Students" can never be selected individually: selecting that
value returns all rows. -/
theorem sentinel_magic_string (recs : List AttendanceRecord)
    (selS selB : List String) (hS : "All Students" ∈ selS) :
    filtered_df recs selS selB =
      (if "All Subjects" ∈ selB then recs
       else recs.filter (fun r => decide (r.subject ∈ selB))) ∧
    filtered_df recs ["All Students"] ["All Subjects"] = recs := by
  constructor
  · unfold filtered_df
    simp [hS]
  · unfold filtered_df
    simp

/-- C10 witness: a table where "All Students" is a genuine student name
next to another student; selecting exactly that value returns both
rows, not only the rows of the student named "All Students". -/
theorem sentinel_magic_string_witness :
    filtered_df [⟨"All Students", "Math", 0, "Present"⟩,
        ⟨"B", "Math", 0, "Absent"⟩] ["All Students"] ["All Subjects"] =
      [⟨"All Students", "Math", 0, "Present"⟩, ⟨"B", "Math", 0, "Absent"⟩] ∧
    ¬([⟨"All Students", "Math", 0, "Present"⟩,
        (⟨"B", "Math", 0, "Absent"⟩ : AttendanceRecord)].filter
          (fun r => decide (r.student = "All Students")) =
      [⟨"All Students", "Math", 0, "Present"⟩, ⟨"B", "Math", 0, "Absent"⟩]) :=
  ⟨(sentinel_magic_string
      [⟨"All Students", "Math", 0, "Present"⟩, ⟨"B", "Math", 0, "Absent"⟩]
      ["All Students"] ["All Subjects"] (by decide)).2,
    by decide⟩

/-- C2: the special-attention computation left-joins the filtered mark
records with the attendance summary of the unfiltered attendance table
on (student, subject) — every filtered mark record appears in the
merged intermediate set — and keeps exactly the joined rows with
marks < 40 and a present attendance value < 75; a row whose key has no
matching summary (missing attendance value) is never in the output. -/
theorem special_attention_join_spec (att : List AttendanceRecord)
    (marks : List MarkRecord) (ssM sbM : List String) :
    (∀ r : MergedRow,
      r ∈ special_attention
          (merged_df (filtered_marks_df marks ssM sbM)
            (attendance_summary att)) ↔
        r ∈ merged_df (filtered_marks_df marks ssM sbM)
            (attendance_summary att) ∧
          r.marks < FAILING_MARK_THRESHOLD ∧
          ∃ p, r.attendance_percent = some p ∧
            p < LOW_ATTENDANCE_THRESHOLD) ∧
    (∀ m ∈ filtered_marks_df marks ssM sbM,
      (⟨m.student, m.subject, m.marks,
          lookupSummary (attendance_summary att) m.student m.subject⟩ :
        MergedRow) ∈
        merged_df (filtered_marks_df marks ssM sbM)
          (attendance_summary att)) ∧
    (∀ r ∈ special_attention
        (merged_df (filtered_marks_df marks ssM sbM)
          (attendance_summary att)),
      r.attendance_percent ≠ none ∧
      lookupSummary (attendance_summary att) r.student r.subject ≠ none) := by
  have hmem : ∀ r : MergedRow,
      r ∈ special_attention
          (merged_df (filtered_marks_df marks ssM sbM)
            (attendance_summary att)) ↔
        r ∈ merged_df (filtered_marks_df marks ssM sbM)
            (attendance_summary att) ∧
          r.marks < FAILING_MARK_THRESHOLD ∧
          ∃ p, r.attendance_percent = some p ∧
            p < LOW_ATTENDANCE_THRESHOLD := by
    intro r
    unfold special_attention
    rw [List.mem_filter]
    simp only [decide_eq_true_eq]
    rw [attnBelow_iff]
  refine ⟨hmem, ?_, ?_⟩
  · intro m hm
    exact mem_merged_df.mpr ⟨m, hm, rfl⟩
  · intro r hr
    obtain ⟨hmerged, _, p, hp, _⟩ := (hmem r).mp hr
    refine ⟨by rw [hp]; exact Option.some_ne_none p, ?_⟩
    rw [← merged_attendance_eq_lookup hmerged, hp]
    exact Option.some_ne_none p

/-- C2 witness: attendance (A, Math, Absent) gives summary (A, Math, 0);
mark record (A, Math, 30) joins to it and, with 30 < 40 and 0 < 75, is
flagged; the theorem then yields a present attendance value. -/
theorem special_attention_join_spec_witness :
    (⟨"A", "Math", 30, some 0⟩ : MergedRow) ∈
      special_attention
        (merged_df
          (filtered_marks_df [⟨"A", "Math", 30⟩]
            ["All Students"] ["All Subjects"])
          (attendance_summary [⟨"A", "Math", 1, "Absent"⟩])) ∧
    (⟨"A", "Math", 30, some 0⟩ : MergedRow).attendance_percent ≠ none := by
  have hsum : attendance_summary [⟨"A", "Math", 1, "Absent"⟩] =
      [⟨"A", "Math", (0 : ℚ)⟩] := by
    simp [attendance_summary, groupKeys, groupRecords, attendancePercent,
      presentCount]
  have hmem : (⟨"A", "Math", 30, some 0⟩ : MergedRow) ∈
      special_attention
        (merged_df
          (filtered_marks_df [⟨"A", "Math", 30⟩]
            ["All Students"] ["All Subjects"])
          (attendance_summary [⟨"A", "Math", 1, "Absent"⟩])) := by
    rw [hsum]
    simp [special_attention, merged_df, lookupSummary, filtered_marks_df,
      attnBelow, FAILING_MARK_THRESHOLD, LOW_ATTENDANCE_THRESHOLD]
    norm_num
  exact ⟨hmem,
    ((special_attention_join_spec [⟨"A", "Math", 1, "Absent"⟩]
      [⟨"A", "Math", 30⟩] ["All Students"] ["All Subjects"]).2.2
      _ hmem).1⟩

/-- C5: the special-attention output is computed from the attendance
summary of the entire unfiltered attendance table, so it is identical
under any two attendance-tab filter selections (marks-tab selection and
input tables held fixed). -/
theorem special_attention_unfiltered (att : List AttendanceRecord)
    (marks : List MarkRecord)
    (ssA1 sbA1 ssA2 sbA2 ssM sbM : List String) :
    special_attention_output att marks ssA1 sbA1 ssM sbM =
      special_attention_output att marks ssA2 sbA2 ssM sbM ∧
    special_attention_output att marks ssA1 sbA1 ssM sbM =
      special_attention
        (merged_df (filtered_marks_df marks ssM sbM)
          (attendance_summary att)) :=
  ⟨rfl, rfl⟩

/-- C3: the low-attendance list is exactly the filtered-summary rows
with attendance strictly below 75, the failing-marks list exactly the
filtered mark records with marks strictly below 40, and values exactly
at a threshold are not flagged. -/
theorem alert_thresholds_spec (att : List AttendanceRecord)
    (marks : List MarkRecord) (ssA sbA ssM sbM : List String) :
    (∀ a : AttendanceSummary,
      a ∈ low_attendance (attendance_summary (filtered_df att ssA sbA)) ↔
        a ∈ attendance_summary (filtered_df att ssA sbA) ∧
          a.attendance_percent < LOW_ATTENDANCE_THRESHOLD) ∧
    (∀ m : MarkRecord,
      m ∈ failing_students (filtered_marks_df marks ssM sbM) ↔
        m ∈ filtered_marks_df marks ssM sbM ∧
          m.marks < FAILING_MARK_THRESHOLD) ∧
    (∀ a : AttendanceSummary, a.attendance_percent = 75 →
      a ∉ low_attendance (attendance_summary (filtered_df att ssA sbA))) ∧
    (∀ m : MarkRecord, m.marks = 40 →
      m ∉ failing_students (filtered_marks_df marks ssM sbM)) := by
  refine ⟨?_, ?_, ?_, ?_⟩
  · intro a
    unfold low_attendance
    rw [List.mem_filter]
    simp
  · intro m
    unfold failing_students
    rw [List.mem_filter]
    simp
  · intro a heq hmem
    unfold low_attendance at hmem
    rw [List.mem_filter] at hmem
    have hlt := of_decide_eq_true hmem.2
    rw [heq] at hlt
    exact absurd hlt (by norm_num [LOW_ATTENDANCE_THRESHOLD])
  · intro m heq hmem
    unfold failing_students at hmem
    rw [List.mem_filter] at hmem
    have hlt := of_decide_eq_true hmem.2
    rw [heq] at hlt
    exact absurd hlt (by norm_num [FAILING_MARK_THRESHOLD])

/-- C3 witness: summary row (A, Math, 0) is low-attendance-flagged,
while a mark of exactly 40 is not failing-flagged. -/
theorem alert_thresholds_spec_witness :
    (⟨"A", "Math", 0⟩ : AttendanceSummary) ∈
      low_attendance (attendance_summary
        (filtered_df [⟨"A", "Math", 1, "Absent"⟩]
          ["All Students"] ["All Subjects"])) ∧
    (⟨"A", "Math", 40⟩ : MarkRecord) ∉
      failing_students (filtered_marks_df [⟨"A", "Math", 40⟩]
        ["All Students"] ["All Subjects"]) := by
  have h := alert_thresholds_spec [⟨"A", "Math", 1, "Absent"⟩]
    [⟨"A", "Math", 40⟩] ["All Students"] ["All Subjects"]
    ["All Students"] ["All Subjects"]
  constructor
  · refine (h.1 ⟨"A", "Math", 0⟩).mpr ⟨?_, by norm_num [LOW_ATTENDANCE_THRESHOLD]⟩
    have : attendance_summary
        (filtered_df [⟨"A", "Math", 1, "Absent"⟩]
          ["All Students"] ["All Subjects"]) =
        [⟨"A", "Math", (0 : ℚ)⟩] := by
      simp [filtered_df, attendance_summary, groupKeys, groupRecords,
        attendancePercent, presentCount]
    rw [this]
    exact List.mem_singleton.mpr rfl
  · exact h.2.2.2 ⟨"A", "Math", 40⟩ rfl

/-- C7: the upcoming table holds exactly the events dated today or
later, sorted ascending by date, and the near-deadline list exactly the
events with date in the closed interval [today, today + 7]. -/
theorem events_deadline_spec (events : List EventRecord) (today : Int) :
    (∀ e : EventRecord, e ∈ upcoming events today ↔
        e ∈ events ∧ today ≤ e.date) ∧
    List.Sorted dateLE (upcoming events today) ∧
    (∀ e : EventRecord, e ∈ near_deadline events today ↔
        e ∈ events ∧ today ≤ e.date ∧ e.date ≤ today + 7) := by
  refine ⟨?_, ?_, ?_⟩
  · intro e
    unfold upcoming
    rw [(List.perm_insertionSort dateLE _).mem_iff, List.mem_filter]
    simp
  · exact List.sorted_insertionSort dateLE _
  · intro e
    unfold near_deadline
    rw [List.mem_filter]
    unfold upcoming
    rw [(List.perm_insertionSort dateLE _).mem_iff, List.mem_filter]
    simp [and_assoc]

/-- C7 witness: with `today = 0`, the event dated 3 is a near deadline
and the event dated 10 is not. -/
theorem events_deadline_spec_witness :
    (⟨"Quiz", 3, "Math"⟩ : EventRecord) ∈
      near_deadline [⟨"Quiz", 3, "Math"⟩, ⟨"Final", 10, "Math"⟩] 0 ∧
    (⟨"Final", 10, "Math"⟩ : EventRecord) ∉
      near_deadline [⟨"Quiz", 3, "Math"⟩, ⟨"Final", 10, "Math"⟩] 0 := by
  have h := (events_deadline_spec
    [⟨"Quiz", 3, "Math"⟩, ⟨"Final", 10, "Math"⟩] 0).2.2
  constructor
  · exact (h ⟨"Quiz", 3, "Math"⟩).mpr ⟨by decide, by decide, by decide⟩
  · intro hc
    exact absurd ((h ⟨"Final", 10, "Math"⟩).mp hc).2.2 (by decide)

/-- C8: an empty special-attention set renders an explicit all-clear
signal, while an empty near-deadline set renders nothing at all;
nonempty sets render their tables. -/
theorem empty_state_asymmetry (sa : List MergedRow)
    (nd : List EventRecord) :
    render_special_attention [] = SpecialAttentionView.allClear ∧
    render_near_deadline [] = none ∧
    (sa ≠ [] →
      render_special_attention sa = SpecialAttentionView.flaggedTable sa) ∧
    (nd ≠ [] → render_near_deadline nd = some nd) := by
  refine ⟨rfl, rfl, fun h => ?_, fun h => ?_⟩ <;>
    simp [render_special_attention, render_near_deadline, h]

/-- C8 witness: the two renderers at concrete nonempty inputs. -/
theorem empty_state_asymmetry_witness :
    render_special_attention [⟨"A", "Math", 30, some 0⟩] =
      SpecialAttentionView.flaggedTable [⟨"A", "Math", 30, some 0⟩] ∧
    render_near_deadline [⟨"Quiz", 3, "Math"⟩] =
      some [⟨"Quiz", 3, "Math"⟩] := by
  have h := empty_state_asymmetry [⟨"A", "Math", 30, some 0⟩]
    [⟨"Quiz", 3, "Math"⟩]
  exact ⟨h.2.2.1 (List.cons_ne_nil _ _), h.2.2.2 (List.cons_ne_nil _ _)⟩

/-- C9: a filter selection yielding zero rows breaks nothing
downstream: groups exist only for observed rows (no division by zero),
the summary and both alert lists of an empty table are empty, and the
pie-chart ratio of an empty table is the absent value rather than a
failure. -/
theorem empty_filter_safe (att : List AttendanceRecord)
    (marks : List MarkRecord) (ssA sbA ssM sbM : List String) :
    (∀ k ∈ groupKeys att, groupRecords att k ≠ []) ∧
    (filtered_df att ssA sbA = [] →
      attendance_summary (filtered_df att ssA sbA) = [] ∧
      low_attendance (attendance_summary (filtered_df att ssA sbA)) = [] ∧
      present_ratio (filtered_df att ssA sbA) = none) ∧
    (filtered_marks_df marks ssM sbM = [] →
      failing_students (filtered_marks_df marks ssM sbM) = [] ∧
      special_attention (merged_df (filtered_marks_df marks ssM sbM)
        (attendance_summary att)) = []) := by
  refine ⟨fun k hk => groupRecords_ne_nil hk, fun h => ?_, fun h => ?_⟩
  · rw [h]
    exact ⟨rfl, rfl, rfl⟩
  · rw [h]
    exact ⟨rfl, rfl⟩

/-- C9 witness: an empty student selection empties the filtered tables,
and all downstream results are empty or absent. -/
theorem empty_filter_safe_witness :
    attendance_summary (filtered_df [⟨"A", "Math", 1, "Present"⟩]
      [] ["All Subjects"]) = [] ∧
    present_ratio (filtered_df [⟨"A", "Math", 1, "Present"⟩]
      [] ["All Subjects"]) = none ∧
    failing_students (filtered_marks_df [⟨"A", "Math", 30⟩]
      [] ["All Subjects"]) = [] := by
  have h := empty_filter_safe [⟨"A", "Math", 1, "Present"⟩]
    [⟨"A", "Math", 30⟩] [] ["All Subjects"] [] ["All Subjects"]
  have h2 := h.2.1 (by decide)
  have h3 := h.2.2 (by decide)
  exact ⟨h2.1, h2.2.2, h3.1⟩

end StudentDashboard
